import Mathlib

/-!
Verification of the `RunAgent` Azure Function (`src/RunAgent/__init__.py`).

The handler is embedded as a pure function over an injected environment:
the configuration variables, the (already parsed or failed) JSON body, the
outcome of every remote SDK call (`Except String _`, the error case standing
for a raised Python exception), and the clock (`time.time()` readings, in
seconds, indexed by call order).  The poll loop is given explicit fuel and
instrumented with an event trace (time checks, sleeps, fetches); the handler
additionally reports the list of remote calls it issued, so that statements
such as "zero remote calls are made" are directly expressible.
-/

namespace RunAgent

/-- A JSON value as it can appear at the top level of a request-body field:
a string, an integer, a boolean, `null`, or anything else (`obj`).  These are
the shapes relevant to `body.get(...)` followed by `int(...)` in the code. -/
inductive JVal
  | str (s : String)
  | num (n : Int)
  | bool (b : Bool)
  | null
  | obj
deriving DecidableEq, Repr

/-- Accumulate a non-empty all-digit character run as a natural number;
any non-digit character makes the whole parse fail. -/
def digitsVal : List Char → Nat → Option Nat
  | [], acc => some acc
  | c :: rest, acc =>
    if c.isDigit then digitsVal rest (acc * 10 + (c.toNat - 48)) else none

/-- Python `int(s)` on a string: an optional sign followed by at least one
decimal digit, anything else raising `ValueError` (`none`).  (Python's
tolerance for surrounding whitespace and digit-group underscores is not
modelled; no claim depends on such strings.) -/
def pyStrToInt (s : String) : Option Int :=
  match s.data with
  | [] => none
  | '-' :: rest =>
    if rest = [] then none else (digitsVal rest 0).map fun n => -(n : Int)
  | '+' :: rest =>
    if rest = [] then none else (digitsVal rest 0).map fun n => (n : Int)
  | cs => (digitsVal cs 0).map fun n => (n : Int)

/-- Python `int(v)` on a request-body value: an `int` passes through, a
string parses as a decimal integer or raises, `True`/`False` become 1/0,
and `None` or any other object raises (`none` = exception). -/
def pyInt : JVal → Option Int
  | .num n => some n
  | .str s => pyStrToInt s
  | .bool b => some (if b then 1 else 0)
  | .null => none
  | .obj => none

/-- Python `body.get(k, dflt)` on a parsed JSON object: the stored value if
the key is present (even if it is `null`), otherwise the default. -/
def jget (body : List (String × JVal)) (k : String) (dflt : JVal) : JVal :=
  match body.lookup k with
  | some v => v
  | none => dflt

/-- The run object returned by `runs.create` / `runs.get`: identifier,
status string, and `last_error` (absent modelled as `none`). -/
structure Run where
  id : String
  status : String
  lastError : Option String
deriving DecidableEq, Repr

/-- `terminal_states = {"completed", "failed", "cancelled", "expired"}`. -/
def terminalStates : List String := ["completed", "failed", "cancelled", "expired"]

/-- One item of a message's raw `content` list, at the granularity the
extraction code distinguishes: a dict tagged `type == "text"` whose `"text"`
entry is itself a dict carrying a `"value"` (`textNested`), such a dict whose
`"text"` entry is a plain value (stringified by `str(...)`, `textFlat`), or
any item the `isinstance`/tag/key guard rejects (`nonText`). -/
inductive ContentItem
  | textNested (value : String)
  | textFlat (s : String)
  | nonText
deriving DecidableEq, Repr

/-- A message (turn) as the assembly loop reads it: identifier, role, the
`text_messages` convenience field (the list of pre-parsed segment values;
an absent attribute is the empty list, which is equally falsy in Python),
and the raw `content` list (likewise). -/
structure Msg where
  id : String
  role : String
  textMessages : List String
  content : List ContentItem
deriving DecidableEq, Repr

/-- The `for c in m.content` scan: first item passing the
`isinstance(c, dict) and c.get("type") == "text" and "text" in c` guard wins;
a dict `"text"` resolves to its `"value"`, a non-dict to `str(...)` of it. -/
def firstTextItem : List ContentItem → Option String
  | [] => none
  | .textNested v :: _ => some v
  | .textFlat s :: _ => some s
  | .nonText :: rest => firstTextItem rest

/-- Per-message text extraction: if `m.text_messages` is truthy (non-empty),
take the last segment's `.text.value`; otherwise scan `m.content` (if any)
for the first text-typed item; otherwise `None`. -/
def extractText (m : Msg) : Option String :=
  if m.textMessages ≠ [] then m.textMessages.getLast?
  else firstTextItem m.content

/-- One entry of the `messages` array of the response body. -/
structure MsgOut where
  id : String
  role : String
  text : Option String
deriving DecidableEq, Repr

/-- An observable event of the poll loop, in execution order: an
`elapsed_ms > hard_timeout_ms` check, a `time.sleep` (argument in seconds),
or a `runs.get` fetch (its index and the status it returned). -/
inductive PEvent
  | timeCheck (elapsedMs : ℚ)
  | sleepFor (seconds : ℚ)
  | fetched (idx : Nat) (status : String)
deriving DecidableEq, Repr

/-- The state in which the poll loop exited: the current run object, the
number of sleeps performed, the number of `runs.get` fetches issued, the
index of the next unread `time.time()` reading, the event trace, and whether
the exit was through the timeout `break` (`timedOut = true`) rather than
through the terminal-status loop condition. -/
structure PollResult where
  run : Run
  sleeps : Nat
  fetches : Nat
  tNext : Nat
  trace : List PEvent
  timedOut : Bool
deriving DecidableEq, Repr

/-- Either a normal poll-loop exit, or a Python exception raised by a
`runs.get` call (with the number of `runs.get` calls issued, failing one
included). -/
inductive PollOutcome
  | ok (pr : PollResult)
  | err (e : String) (gets : Nat)
deriving DecidableEq, Repr

/-- The injected environment: configuration, request, remote-call outcomes
and the clock.  `clock n` is the value (in seconds) returned by the `n`-th
`time.time()` call; `runGet f` the outcome of the `f`-th `runs.get`. -/
structure Env where
  method : String
  endpoint : Option String
  agentIdEnv : Option String
  body : Option (List (String × JVal))
  clientInit : Except String Unit
  threadCreate : Except String String
  messageCreate : Except String Unit
  runCreate : Except String Run
  runGet : Nat → Except String Run
  messagesList : Except String (List Msg)
  clock : Nat → ℚ

/-- The `while run.status not in terminal_states` loop, with explicit fuel.
State: current run, next `time.time()` index `t`, next `runs.get` index `f`,
sleeps performed `s`, accumulated trace `tr`.  Each iteration checks the
loop condition, reads the clock, compares `elapsed_ms` strictly against the
hard timeout (break on exceed), else sleeps `pollIntervalMs / 1000` seconds
and re-fetches the run, a raised fetch propagating as `PollOutcome.err`. -/
def pollAux (env : Env) (hardTimeoutMs pollIntervalMs : Int) (start : ℚ) :
    Nat → Run → Nat → Nat → Nat → List PEvent → Option PollOutcome
  | 0, _, _, _, _, _ => none
  | fuel + 1, run, t, f, s, tr =>
    if run.status ∈ terminalStates then
      some (.ok ⟨run, s, f, t, tr, false⟩)
    else
      let elapsedMs : ℚ := (env.clock t - start) * 1000
      if elapsedMs > (hardTimeoutMs : ℚ) then
        some (.ok ⟨run, s, f, t + 1, tr ++ [.timeCheck elapsedMs], true⟩)
      else
        match env.runGet f with
        | .error e => some (.err e (f + 1))
        | .ok run' =>
          pollAux env hardTimeoutMs pollIntervalMs start fuel run' (t + 1) (f + 1) (s + 1)
            (tr ++ [.timeCheck elapsedMs, .sleepFor ((pollIntervalMs : ℚ) / 1000),
                    .fetched f run'.status])

/-- A remote SDK call the handler can issue, in the order issued. -/
inductive RemoteCall
  | threadCreate
  | messageCreate
  | runCreate
  | runGet (idx : Nat)
  | messagesList
deriving DecidableEq, Repr

/-- The successful (HTTP 200) response payload. -/
structure OkResult where
  threadId : String
  run : Run
  messages : List MsgOut
  warning : Option String
deriving DecidableEq, Repr

/-- The body of an HTTP response: empty (204 preflight), an error body
(`{"error": ..., "details"?: ...}`), or the success payload. -/
inductive RespBody
  | empty
  | err (error : String) (details : Option String)
  | ok (r : OkResult)
deriving DecidableEq, Repr

/-- What the handler does, seen from outside: return an HTTP response, or
let a Python exception escape the handler (raised outside every
`try`/`except` of the function). -/
inductive Outcome
  | resp (status : Nat) (body : RespBody)
  | uncaught (msg : String)
deriving DecidableEq, Repr

/-- `_bad_request(msg)`: HTTP 400 with `{"error": msg}`. -/
def badRequest (msg : String) : Outcome := .resp 400 (.err msg none)

/-- `_server_error(msg, details)`: HTTP 500 with `{"error": msg}` plus
`details` when given. -/
def serverError (msg : String) (details : Option String) : Outcome :=
  .resp 500 (.err msg details)

/-- The timeout warning string
`f"Timed out after {hard_timeout_ms} ms; last known status={run.status}"`. -/
def warningText (hardTimeoutMs : Int) (status : String) : String :=
  "Timed out after " ++ toString hardTimeoutMs ++ " ms; last known status=" ++ status

/-- The `messages.append({...})` loop: every listed message contributes one
entry, text extracted by `extractText`. -/
def buildMessages (msgs : List Msg) : List MsgOut :=
  msgs.map fun m => ⟨m.id, m.role, extractText m⟩

/-- The handler `main`, embedded over `Env` with poll fuel.  `none` means
the poll loop was still running when the fuel ran out; otherwise the result
pairs the outcome with the list of remote SDK calls issued. -/
def main (fuel : Nat) (env : Env) : Option (Outcome × List RemoteCall) :=
  if env.method = "OPTIONS" then some (.resp 204 .empty, [])
  else
    match env.endpoint with
    | none => some (serverError "Server missing AZURE_AI_ENDPOINT" none, [])
    | some ep =>
      if ep = "" then some (serverError "Server missing AZURE_AI_ENDPOINT" none, [])
      else
        match env.agentIdEnv with
        | none => some (serverError "Server missing AZURE_AI_AGENT_ID" none, [])
        | some dflt =>
          if dflt = "" then some (serverError "Server missing AZURE_AI_AGENT_ID" none, [])
          else
            match env.body with
            | none => some (badRequest "Invalid JSON body.", [])
            | some body =>
              let _userInput := jget body "input" (.str "Hi")
              let _agentId := jget body "agentId" (.str dflt)
              match pyInt (jget body "pollIntervalMs" (.num 1000)) with
              | none => some (.uncaught "int() raised on pollIntervalMs", [])
              | some pollIntervalMs =>
                match pyInt (jget body "timeoutMs" (.num 60000)) with
                | none => some (.uncaught "int() raised on timeoutMs", [])
                | some hardTimeoutMs =>
                  match env.clientInit with
                  | .error e =>
                    some (serverError "Failed to initialize AIProjectClient." (some e), [])
                  | .ok _ =>
                    match env.threadCreate with
                    | .error e =>
                      some (serverError "Agent run failed." (some e), [.threadCreate])
                    | .ok threadId =>
                      match env.messageCreate with
                      | .error e =>
                        some (serverError "Agent run failed." (some e),
                          [.threadCreate, .messageCreate])
                      | .ok _ =>
                        match env.runCreate with
                        | .error e =>
                          some (serverError "Agent run failed." (some e),
                            [.threadCreate, .messageCreate, .runCreate])
                        | .ok run0 =>
                          let start := env.clock 0
                          match pollAux env hardTimeoutMs pollIntervalMs start
                              fuel run0 1 0 0 [] with
                          | none => none
                          | some (.err e gets) =>
                            some (serverError "Agent run failed." (some e),
                              [.threadCreate, .messageCreate, .runCreate] ++
                                (List.range gets).map .runGet)
                          | some (.ok pr) =>
                            let calls := [.threadCreate, .messageCreate, .runCreate] ++
                              (List.range pr.fetches).map RemoteCall.runGet ++
                              [RemoteCall.messagesList]
                            match env.messagesList with
                            | .error e =>
                              some (serverError "Agent run failed." (some e), calls)
                            | .ok msgs =>
                              let elapsedMs : ℚ := (env.clock pr.tNext - start) * 1000
                              let warning : Option String :=
                                if elapsedMs > (hardTimeoutMs : ℚ) ∧
                                    pr.run.status ∉ terminalStates then
                                  some (warningText hardTimeoutMs pr.run.status)
                                else none
                              some (.resp 200 (.ok ⟨threadId, pr.run,
                                buildMessages msgs, warning⟩), calls)

/-- Resolution of a text-typed content item: a nested `{"text": {"value": v}}`
resolves to `v`, a flat `{"text": x}` with non-dict `x` to `str(x)`.  (On a
`nonText` item the loop never resolves; the value here is irrelevant.) -/
def resolveTextItem : ContentItem → String
  | .textNested v => v
  | .textFlat s => s
  | .nonText => ""

end RunAgent

open RunAgent

/-- A run object that is still in progress. -/
def runQueued : Run := ⟨"run-1", "queued", none⟩

/-- A run object that has completed. -/
def runDone : Run := ⟨"run-1", "completed", none⟩

/-- Environment for the C1 scenario: 1 s sleeps; `time.time()` reads 0 s at
the start, stays within the 3 s budget on the first three loop tops, and is
past 3 s on the fourth; `runs.get` reports `in_progress` on the first three
fetches and `completed` from the fourth on. -/
def envC1 : Env where
  method := "POST"
  endpoint := some "https://example.net"
  agentIdEnv := some "agent-1"
  body := some [("pollIntervalMs", .num 1000), ("timeoutMs", .num 3000)]
  clientInit := .ok ()
  threadCreate := .ok "t1"
  messageCreate := .ok ()
  runCreate := .ok runQueued
  runGet := fun f => .ok ⟨"run-1", if f < 3 then "in_progress" else "completed", none⟩
  messagesList := .ok []
  clock := fun n => match n with | 0 => 0 | 1 => 0 | 2 => 1 | 3 => 2 | _ => 7/2

/-- Environment for the C4 witness: immediate timeout geometry. -/
def envC4 : Env :=
  { envC1 with clock := fun n => match n with | 0 => 0 | _ => 10 }

/-- Environment for the C2 witness: `timeoutMs = 500`, a monotone clock that
reads `n` seconds on the `n`-th call, and a run that never leaves `queued`,
so the first loop top already sees 1000 ms elapsed and times out. -/
def envC2 : Env :=
  { envC1 with body := some [("timeoutMs", .num 500)], clock := fun n => (n : ℚ) }

/-- The poll result of the C2 witness scenario: a timeout exit on the first
loop top, zero sleeps and zero fetches, run still `queued`. -/
def prC2 : PollResult :=
  ⟨runQueued, 0, 0, 2, [.timeCheck ((envC2.clock 1 - envC2.clock 0) * 1000)], true⟩

/-- Environment for the C3 witness: default timeouts and a run that is
already `completed` when the Launcher returns it. -/
def envC3 : Env :=
  { envC1 with body := some [], runCreate := .ok runDone, clock := fun n => (n : ℚ) }

/-- Environment for the C9 witness: a fully successful request whose run
completes immediately, under a monotone clock. -/
def envC9 : Env :=
  { envC1 with
    body := some []
    runCreate := .ok runDone
    clock := fun n => (n : ℚ)
    messagesList := .ok [⟨"m1", "user", [], []⟩] }


/-- Environment for the C6 witness: a request whose body failed to parse. -/
def envC6 : Env := { envC1 with body := none }

/-- Environment for the C7 witness: the endpoint configuration variable is
absent and the body is malformed too. -/
def envC7 : Env := { envC1 with endpoint := none, body := none }

/-- Environment for the C8 witnesses: thread creation raises. -/
def envC8a : Env := { envC1 with threadCreate := .error "boom" }

/-- Environment for the C8 witnesses: every `runs.get` raises. -/
def envC8b : Env := { envC1 with runGet := fun _ => .error "neterr" }

/-- Environment for the C8 witnesses: the run completes at once but listing
the messages raises. -/
def envC8c : Env :=
  { envC1 with runCreate := .ok runDone, messagesList := .error "listfail" }

/-- Environment for the C10 witness: both optional integers are negative
(no positivity validation exists to reject them). -/
def envC10a : Env :=
  { envC1 with
    body := some [("pollIntervalMs", .num (-5)), ("timeoutMs", .num (-7))]
    runCreate := .ok runDone }

/-- Environment for the C10 witness: `pollIntervalMs` is a string `int()`
cannot parse, so the coercion raises outside the handler's error paths. -/
def envC10b : Env := { envC1 with body := some [("pollIntervalMs", .str "abc")] }

/-- Every normal poll-loop exit is of one of two kinds: a terminal exit
(`timedOut = false`, final status terminal) or a timeout exit
(`timedOut = true`, final status non-terminal, and the clock reading taken
in the exiting iteration put `elapsed_ms` strictly above the timeout). -/
theorem pollAux_ok_cases (env : Env) (T I : Int) (start : ℚ) :
    ∀ (fuel : Nat) (run : Run) (t f s : Nat) (tr : List PEvent) (pr : PollResult),
    pollAux env T I start fuel run t f s tr = some (.ok pr) →
    (pr.timedOut = false ∧ pr.run.status ∈ terminalStates) ∨
    (pr.timedOut = true ∧ pr.run.status ∉ terminalStates ∧ 1 ≤ pr.tNext ∧
      (env.clock (pr.tNext - 1) - start) * 1000 > (T : ℚ)) := by
  intro fuel
  induction fuel with
  | zero => intro run t f s tr pr h; simp [pollAux] at h
  | succ n ih =>
    intro run t f s tr pr h
    rw [pollAux] at h
    split at h
    · rename_i hterm
      simp only [Option.some.injEq, PollOutcome.ok.injEq] at h
      subst h
      exact Or.inl ⟨rfl, hterm⟩
    · rename_i hterm
      dsimp only at h
      split at h
      · rename_i hel
        simp only [Option.some.injEq, PollOutcome.ok.injEq] at h
        subst h
        exact Or.inr ⟨rfl, hterm, by simp, by simpa using hel⟩
      · split at h
        · simp at h
        · exact ih _ _ _ _ _ _ h

/-- C4: each poll iteration entered with a non-terminal status first compares
elapsed time against the hard timeout: on exceed it exits at once, keeping
the last observed run and issuing no fetch (only a time-check event);
otherwise it sleeps exactly `pollIntervalMs / 1000` seconds and only then
re-fetches, continuing with the fetched run in place of the current one.  An
iteration entered with a terminal status exits with state untouched, so a
terminal initial status means zero sleeps and zero fetches. -/
theorem C4_poll_iteration_order (env : Env) (T I : Int) (start : ℚ)
    (fuel : Nat) (run : Run) (t f s : Nat) (tr : List PEvent) :
    (run.status ∈ terminalStates →
      pollAux env T I start (fuel + 1) run t f s tr =
        some (.ok ⟨run, s, f, t, tr, false⟩)) ∧
    (run.status ∈ terminalStates →
      pollAux env T I start (fuel + 1) run 1 0 0 [] =
        some (.ok ⟨run, 0, 0, 1, [], false⟩)) ∧
    (run.status ∉ terminalStates → (env.clock t - start) * 1000 > (T : ℚ) →
      pollAux env T I start (fuel + 1) run t f s tr =
        some (.ok ⟨run, s, f, t + 1,
          tr ++ [.timeCheck ((env.clock t - start) * 1000)], true⟩)) ∧
    (∀ run', run.status ∉ terminalStates →
      ¬(env.clock t - start) * 1000 > (T : ℚ) →
      env.runGet f = .ok run' →
      pollAux env T I start (fuel + 1) run t f s tr =
        pollAux env T I start fuel run' (t + 1) (f + 1) (s + 1)
          (tr ++ [.timeCheck ((env.clock t - start) * 1000),
                  .sleepFor ((I : ℚ) / 1000), .fetched f run'.status])) := by
  refine ⟨fun hterm => ?_, fun hterm => ?_, fun hterm hel => ?_,
    fun run' hterm hel hget => ?_⟩
  · rw [pollAux, if_pos hterm]
  · rw [pollAux, if_pos hterm]
  · rw [pollAux, if_neg hterm]
    dsimp only
    rw [if_pos hel]
  · rw [pollAux, if_neg hterm]
    dsimp only
    rw [if_neg hel, hget]

/-- Witness for C4 at concrete states: a terminal entry exits untouched with
zero sleeps/fetches; a non-terminal entry past the deadline exits without a
fetch; a non-terminal entry within the deadline sleeps then fetches. -/
theorem C4_poll_iteration_order_witness :
    (pollAux envC4 3000 1000 0 1 runDone 1 0 0 [] =
      some (.ok ⟨runDone, 0, 0, 1, [], false⟩)) ∧
    (pollAux envC4 3000 1000 0 1 runQueued 1 0 0 [] =
      some (.ok ⟨runQueued, 0, 0, 2,
        [.timeCheck ((envC4.clock 1 - 0) * 1000)], true⟩)) ∧
    (pollAux envC1 3000 1000 0 1 runQueued 1 0 0 [] =
      pollAux envC1 3000 1000 0 0 ⟨"run-1", "in_progress", none⟩ 2 1 1
        [.timeCheck ((envC1.clock 1 - 0) * 1000), .sleepFor ((1000 : ℚ) / 1000),
         .fetched 0 ("in_progress")]) :=
  ⟨(C4_poll_iteration_order envC4 3000 1000 0 0 runDone 1 0 0 []).2.1 (by decide),
   (C4_poll_iteration_order envC4 3000 1000 0 0 runQueued 1 0 0 []).2.2.1
     (by decide) (by norm_num [envC4, envC1]),
   (C4_poll_iteration_order envC1 3000 1000 0 0 runQueued 1 0 0 []).2.2.2
     ⟨"run-1", "in_progress", none⟩ (by decide) (by norm_num [envC1]) (by rfl)⟩

/-- C1: with `pollIntervalMs = 1000` and `timeoutMs = 3000`, a run that is
non-terminal initially and on the first three in-loop status fetches, with
elapsed time within the 3000 ms budget at the first three loop tops and
beyond it at the fourth (after three 1 s sleeps), makes the loop perform
exactly 3 sleeps and 3 fetches and exit through the timeout branch with the
last fetched non-terminal run; the 4th fetch — the one that would read
`completed` — is never issued, because the timeout check precedes each
sleep. -/
theorem C1_three_sleeps_then_timeout (env : Env) (run0 r1 r2 r3 r4 : Run) (fuel : Nat)
    (hc1 : env.clock 1 - env.clock 0 ≤ 3) (hc2 : env.clock 2 - env.clock 0 ≤ 3)
    (hc3 : env.clock 3 - env.clock 0 ≤ 3) (hc4 : env.clock 4 - env.clock 0 > 3)
    (h0 : run0.status ∉ terminalStates)
    (hg0 : env.runGet 0 = .ok r1) (h1 : r1.status ∉ terminalStates)
    (hg1 : env.runGet 1 = .ok r2) (h2 : r2.status ∉ terminalStates)
    (hg2 : env.runGet 2 = .ok r3) (h3 : r3.status ∉ terminalStates)
    (hg3 : env.runGet 3 = .ok r4) (h4 : r4.status = "completed") :
    pollAux env 3000 1000 (env.clock 0) (fuel + 4) run0 1 0 0 [] =
      some (.ok ⟨r3, 3, 3, 5,
        [.timeCheck ((env.clock 1 - env.clock 0) * 1000), .sleepFor ((1000 : ℚ) / 1000),
         .fetched 0 r1.status,
         .timeCheck ((env.clock 2 - env.clock 0) * 1000), .sleepFor ((1000 : ℚ) / 1000),
         .fetched 1 r2.status,
         .timeCheck ((env.clock 3 - env.clock 0) * 1000), .sleepFor ((1000 : ℚ) / 1000),
         .fetched 2 r3.status,
         .timeCheck ((env.clock 4 - env.clock 0) * 1000)], true⟩) := by
  have e1 : ¬((env.clock 1 - env.clock 0) * 1000 > ((3000 : Int) : ℚ)) := by
    push_neg; push_cast; linarith
  have e2 : ¬((env.clock 2 - env.clock 0) * 1000 > ((3000 : Int) : ℚ)) := by
    push_neg; push_cast; linarith
  have e3 : ¬((env.clock 3 - env.clock 0) * 1000 > ((3000 : Int) : ℚ)) := by
    push_neg; push_cast; linarith
  have e4 : (env.clock 4 - env.clock 0) * 1000 > ((3000 : Int) : ℚ) := by
    push_cast; linarith
  rw [show fuel + 4 = (fuel + 3) + 1 from rfl, pollAux, if_neg h0]
  dsimp only
  rw [if_neg e1, hg0]
  norm_num
  rw [show fuel + 3 = (fuel + 2) + 1 from rfl, pollAux, if_neg h1]
  dsimp only
  rw [if_neg e2, hg1]
  norm_num
  rw [show fuel + 2 = (fuel + 1) + 1 from rfl, pollAux, if_neg h2]
  dsimp only
  rw [if_neg e3, hg2]
  norm_num
  rw [pollAux, if_neg h3]
  dsimp only
  rw [if_pos e4]
  simp

/-- Witness for C1 on a concrete environment whose clock stays within the
budget for three loop tops and exceeds it on the fourth, with the run
reading `in_progress` on the first three fetches and `completed` from the
fourth on. -/
theorem C1_three_sleeps_then_timeout_witness :
    pollAux envC1 3000 1000 (envC1.clock 0) (0 + 4) runQueued 1 0 0 [] =
      some (.ok ⟨⟨"run-1", "in_progress", none⟩, 3, 3, 5,
        [.timeCheck ((envC1.clock 1 - envC1.clock 0) * 1000), .sleepFor ((1000 : ℚ) / 1000),
         .fetched 0 "in_progress",
         .timeCheck ((envC1.clock 2 - envC1.clock 0) * 1000), .sleepFor ((1000 : ℚ) / 1000),
         .fetched 1 "in_progress",
         .timeCheck ((envC1.clock 3 - envC1.clock 0) * 1000), .sleepFor ((1000 : ℚ) / 1000),
         .fetched 2 "in_progress",
         .timeCheck ((envC1.clock 4 - envC1.clock 0) * 1000)], true⟩) :=
  C1_three_sleeps_then_timeout envC1 runQueued
    ⟨"run-1", "in_progress", none⟩ ⟨"run-1", "in_progress", none⟩
    ⟨"run-1", "in_progress", none⟩ ⟨"run-1", "completed", none⟩ 0
    (by norm_num [envC1]) (by norm_num [envC1]) (by norm_num [envC1])
    (by norm_num [envC1])
    (by decide) (by rfl) (by decide) (by rfl) (by decide) (by rfl) (by decide)
    (by rfl) (by rfl)

/-- Scanning a list in which every item fails the text guard finds nothing. -/
theorem firstTextItem_all_nonText :
    ∀ l : List ContentItem, (∀ c ∈ l, c = .nonText) → firstTextItem l = none := by
  intro l h
  induction l with
  | nil => rfl
  | cons c rest ih =>
    have hc : c = ContentItem.nonText := h c (by simp)
    subst hc
    exact ih fun c hc => h c (by simp [hc])

/-- A prefix of guard-failing items does not affect the scan. -/
theorem firstTextItem_append_nonText (pre l : List ContentItem)
    (h : ∀ c ∈ pre, c = .nonText) :
    firstTextItem (pre ++ l) = firstTextItem l := by
  induction pre with
  | nil => rfl
  | cons c rest ih =>
    have hc : c = ContentItem.nonText := h c (by simp)
    subst hc
    exact ih fun c hc => h c (by simp [hc])

/-- C5: per-turn text extraction is an ordered fallback, first match wins.
If the pre-parsed `text_messages` field is non-empty, the extracted text is
its last segment; otherwise the first content item passing the text guard is
taken, a nested item resolving to its inner value and a flat one to its
string; a turn with an empty `text_messages` and no text-typed content item
yields `none`, and assembly of the remaining turns continues regardless. -/
theorem C5_text_extraction_fallback (m : Msg) :
    (∀ h : m.textMessages ≠ [], extractText m = some (m.textMessages.getLast h)) ∧
    (∀ pre item rest, m.textMessages = [] → m.content = pre ++ item :: rest →
      (∀ c ∈ pre, c = ContentItem.nonText) → item ≠ ContentItem.nonText →
      extractText m = some (resolveTextItem item)) ∧
    (∀ v, resolveTextItem (ContentItem.textNested v) = v ∧
      resolveTextItem (ContentItem.textFlat v) = v) ∧
    (m.textMessages = [] → (∀ c ∈ m.content, c = ContentItem.nonText) →
      extractText m = none) ∧
    (∀ ms, buildMessages (m :: ms) =
      ⟨m.id, m.role, extractText m⟩ :: buildMessages ms) := by
  refine ⟨fun h => ?_, fun pre item rest h1 h2 hpre hitem => ?_,
    fun v => ⟨rfl, rfl⟩, fun h1 h2 => ?_, fun ms => rfl⟩
  · rw [extractText, if_pos h, List.getLast?_eq_getLast _ h]
  · rw [extractText, if_neg (by simp [h1]), h2, firstTextItem_append_nonText _ _ hpre]
    cases item with
    | textNested v => rfl
    | textFlat s => rfl
    | nonText => exact absurd rfl hitem
  · rw [extractText, if_neg (by simp [h1]), firstTextItem_all_nonText _ h2]

/-- Witness for C5 on concrete turns: a last-segment extraction, a
content-scan extraction past a non-text item, a turn with no textual
content yielding `none`, and assembly continuing past such a turn. -/
theorem C5_text_extraction_fallback_witness :
    extractText ⟨"m1", "agent", ["a", "b"], []⟩ = some "b" ∧
    extractText ⟨"m2", "agent", [],
      [.nonText, .textNested "x", .textFlat "y"]⟩ = some "x" ∧
    extractText ⟨"m3", "tool", [], [.nonText]⟩ = none ∧
    buildMessages [⟨"m3", "tool", [], [.nonText]⟩, ⟨"m1", "agent", ["a", "b"], []⟩] =
      ⟨"m3", "tool", extractText ⟨"m3", "tool", [], [.nonText]⟩⟩ ::
        buildMessages [⟨"m1", "agent", ["a", "b"], []⟩] :=
  ⟨by have := (C5_text_extraction_fallback ⟨"m1", "agent", ["a", "b"], []⟩).1
        (by decide)
      simpa using this,
   (C5_text_extraction_fallback ⟨"m2", "agent", [],
      [.nonText, .textNested "x", .textFlat "y"]⟩).2.1
     [.nonText] (.textNested "x") [.textFlat "y"] rfl rfl (by simp) (by simp),
   (C5_text_extraction_fallback ⟨"m3", "tool", [], [.nonText]⟩).2.2.2.1 rfl
     (by simp),
   (C5_text_extraction_fallback ⟨"m3", "tool", [], [.nonText]⟩).2.2.2.2
     [⟨"m1", "agent", ["a", "b"], []⟩]⟩

/-- Unfolding of the handler along the fully successful path: POST method,
configuration present, body parsed, both optional integers coerced, client
initialized, all remote calls succeeding and the poll loop exiting normally.
The response is a 200 whose warning is governed by the final elapsed-time
check, and the remote calls issued are create-thread, create-message,
create-run, one get per poll fetch, then list-messages. -/
theorem main_success (env : Env) (fuel : Nat) (ep dflt : String)
    (body : List (String × JVal)) (I T : Int) (tid : String) (run0 : Run)
    (pr : PollResult) (msgs : List Msg)
    (hm : env.method ≠ "OPTIONS")
    (hep : env.endpoint = some ep) (hep' : ep ≠ "")
    (hag : env.agentIdEnv = some dflt) (hag' : dflt ≠ "")
    (hb : env.body = some body)
    (hpi : pyInt (jget body "pollIntervalMs" (.num 1000)) = some I)
    (hti : pyInt (jget body "timeoutMs" (.num 60000)) = some T)
    (hci : env.clientInit = .ok ())
    (htc : env.threadCreate = .ok tid)
    (hmc : env.messageCreate = .ok ())
    (hrc : env.runCreate = .ok run0)
    (hpoll : pollAux env T I (env.clock 0) fuel run0 1 0 0 [] = some (.ok pr))
    (hml : env.messagesList = .ok msgs) :
    main fuel env = some (.resp 200 (.ok ⟨tid, pr.run, buildMessages msgs,
      if (env.clock pr.tNext - env.clock 0) * 1000 > (T : ℚ) ∧
          pr.run.status ∉ terminalStates then
        some (warningText T pr.run.status)
      else none⟩),
      [.threadCreate, .messageCreate, .runCreate] ++
        (List.range pr.fetches).map RemoteCall.runGet ++ [.messagesList]) := by
  rw [main, if_neg hm, hep]
  dsimp only
  rw [if_neg hep', hag]
  dsimp only
  rw [if_neg hag', hb]
  dsimp only
  rw [hpi]
  dsimp only
  rw [hti]
  dsimp only
  rw [hci]
  dsimp only
  rw [htc]
  dsimp only
  rw [hmc]
  dsimp only
  rw [hrc]
  dsimp only
  rw [hpoll]
  dsimp only
  rw [hml]

/-- The timeout warning string mentions the configured timeout value. -/
theorem warningText_mentions (T : Int) (st : String) :
    (toString T).data <:+: (warningText T st).data := by
  refine ⟨"Timed out after ".data, (" ms; last known status=" ++ st).data, ?_⟩
  simp [warningText, String.data_append]

/-- C2: when every remote call succeeds but the poll loop exits through the
timeout branch, the handler still returns HTTP 200; `run.status` is the last
observed non-terminal status and the `warning` field is present and mentions
the configured `timeoutMs` value (the clock being monotone). -/
theorem C2_timeout_still_200_with_warning (env : Env) (fuel : Nat)
    (ep dflt : String) (body : List (String × JVal)) (I T : Int) (tid : String)
    (run0 : Run) (pr : PollResult) (msgs : List Msg)
    (hm : env.method ≠ "OPTIONS")
    (hep : env.endpoint = some ep) (hep' : ep ≠ "")
    (hag : env.agentIdEnv = some dflt) (hag' : dflt ≠ "")
    (hb : env.body = some body)
    (hpi : pyInt (jget body "pollIntervalMs" (.num 1000)) = some I)
    (hti : pyInt (jget body "timeoutMs" (.num 60000)) = some T)
    (hci : env.clientInit = .ok ())
    (htc : env.threadCreate = .ok tid)
    (hmc : env.messageCreate = .ok ())
    (hrc : env.runCreate = .ok run0)
    (hpoll : pollAux env T I (env.clock 0) fuel run0 1 0 0 [] = some (.ok pr))
    (hml : env.messagesList = .ok msgs)
    (hto : pr.timedOut = true)
    (hmono : Monotone env.clock) :
    main fuel env = some (.resp 200 (.ok ⟨tid, pr.run, buildMessages msgs,
      some (warningText T pr.run.status)⟩),
      [.threadCreate, .messageCreate, .runCreate] ++
        (List.range pr.fetches).map RemoteCall.runGet ++ [.messagesList]) ∧
    pr.run.status ∉ terminalStates ∧
    (toString T).data <:+: (warningText T pr.run.status).data := by
  rcases pollAux_ok_cases env T I (env.clock 0) fuel run0 1 0 0 [] pr hpoll with
    ⟨hf, _⟩ | ⟨_, hnt, h1, hgt⟩
  · rw [hto] at hf; cases hf
  · have hle : env.clock (pr.tNext - 1) ≤ env.clock pr.tNext := hmono (Nat.sub_le _ _)
    have hgt' : (env.clock pr.tNext - env.clock 0) * 1000 > (T : ℚ) := by nlinarith
    rw [main_success env fuel ep dflt body I T tid run0 pr msgs hm hep hep' hag hag'
      hb hpi hti hci htc hmc hrc hpoll hml, if_pos ⟨hgt', hnt⟩]
    exact ⟨rfl, hnt, warningText_mentions T _⟩

/-- Witness for C2: with `timeoutMs = 500` and a clock reading 1 s on the
first loop top, the concrete handler run returns 200 with the `queued` run
and a warning mentioning 500. -/
theorem C2_timeout_still_200_with_warning_witness :
    main (0 + 1) envC2 = some (.resp 200 (.ok ⟨"t1", prC2.run, buildMessages [],
      some (warningText 500 prC2.run.status)⟩),
      [.threadCreate, .messageCreate, .runCreate] ++
        (List.range prC2.fetches).map RemoteCall.runGet ++ [.messagesList]) ∧
    prC2.run.status ∉ terminalStates ∧
    (toString (500 : Int)).data <:+: (warningText 500 prC2.run.status).data := by
  have hpoll : pollAux envC2 500 1000 (envC2.clock 0) (0 + 1) runQueued 1 0 0 [] =
      some (.ok prC2) := by
    rw [pollAux, if_neg (by decide)]
    dsimp only
    rw [if_pos (by norm_num [envC2, envC1])]
    simp [prC2]
  exact C2_timeout_still_200_with_warning envC2 (0 + 1) "https://example.net"
    "agent-1" [("timeoutMs", .num 500)] 1000 500 "t1" runQueued prC2 []
    (by decide) rfl (by decide) rfl (by decide) rfl rfl rfl rfl rfl rfl rfl hpoll rfl
    rfl (fun i j h => by
      show ((i : ℚ)) ≤ ((j : ℚ))
      exact_mod_cast h)

/-- C3: when every remote call succeeds and the poll loop exits through the
terminal-status check (not the timeout branch), the response is HTTP 200
with `run.status` exactly the observed terminal value and no `warning`
field. -/
theorem C3_terminal_no_warning (env : Env) (fuel : Nat)
    (ep dflt : String) (body : List (String × JVal)) (I T : Int) (tid : String)
    (run0 : Run) (pr : PollResult) (msgs : List Msg)
    (hm : env.method ≠ "OPTIONS")
    (hep : env.endpoint = some ep) (hep' : ep ≠ "")
    (hag : env.agentIdEnv = some dflt) (hag' : dflt ≠ "")
    (hb : env.body = some body)
    (hpi : pyInt (jget body "pollIntervalMs" (.num 1000)) = some I)
    (hti : pyInt (jget body "timeoutMs" (.num 60000)) = some T)
    (hci : env.clientInit = .ok ())
    (htc : env.threadCreate = .ok tid)
    (hmc : env.messageCreate = .ok ())
    (hrc : env.runCreate = .ok run0)
    (hpoll : pollAux env T I (env.clock 0) fuel run0 1 0 0 [] = some (.ok pr))
    (hml : env.messagesList = .ok msgs)
    (hterm : pr.timedOut = false) :
    main fuel env = some (.resp 200 (.ok ⟨tid, pr.run, buildMessages msgs, none⟩),
      [.threadCreate, .messageCreate, .runCreate] ++
        (List.range pr.fetches).map RemoteCall.runGet ++ [.messagesList]) ∧
    pr.run.status ∈ terminalStates := by
  rcases pollAux_ok_cases env T I (env.clock 0) fuel run0 1 0 0 [] pr hpoll with
    ⟨_, hin⟩ | ⟨ht, _⟩
  · rw [main_success env fuel ep dflt body I T tid run0 pr msgs hm hep hep' hag hag'
      hb hpi hti hci htc hmc hrc hpoll hml, if_neg fun h => h.2 hin]
    exact ⟨rfl, hin⟩
  · rw [hterm] at ht; cases ht

/-- Witness for C3: a run already `completed` at launch yields 200 with
status `completed`, zero fetches and no warning. -/
theorem C3_terminal_no_warning_witness :
    main (0 + 1) envC3 = some (.resp 200 (.ok ⟨"t1", runDone, buildMessages [], none⟩),
      [.threadCreate, .messageCreate, .runCreate] ++
        (List.range 0).map RemoteCall.runGet ++ [.messagesList]) ∧
    runDone.status ∈ terminalStates := by
  have hpoll : pollAux envC3 60000 1000 (envC3.clock 0) (0 + 1) runDone 1 0 0 [] =
      some (.ok ⟨runDone, 0, 0, 1, [], false⟩) := by
    rw [pollAux, if_pos (by decide)]
  exact C3_terminal_no_warning envC3 (0 + 1) "https://example.net" "agent-1" []
    1000 60000 "t1" runDone ⟨runDone, 0, 0, 1, [], false⟩ []
    (by decide) rfl (by decide) rfl (by decide) rfl rfl rfl rfl rfl rfl rfl hpoll rfl
    rfl

/-- C9: under a monotone clock, every HTTP 200 response has its `warning`
field present exactly when the returned `run.status` is non-terminal: the
loop can only exit non-terminal through the timeout branch, after which
elapsed time only grows, so the second elapsed-time comparison guarding the
warning cannot fail. -/
theorem C9_warning_iff_nonterminal (env : Env) (fuel : Nat) (r : OkResult)
    (calls : List RemoteCall) (hmono : Monotone env.clock)
    (h : main fuel env = some (.resp 200 (.ok r), calls)) :
    r.warning.isSome ↔ r.run.status ∉ terminalStates := by
  rw [main] at h
  split at h
  · simp at h
  split at h
  · simp [serverError] at h
  split at h
  · simp [serverError] at h
  split at h
  · simp [serverError] at h
  split at h
  · simp [serverError] at h
  split at h
  · simp [badRequest] at h
  dsimp only at h
  split at h
  · simp at h
  split at h
  · simp at h
  split at h
  · simp [serverError] at h
  split at h
  · simp [serverError] at h
  split at h
  · simp [serverError] at h
  split at h
  · simp [serverError] at h
  split at h
  · simp at h
  · simp [serverError] at h
  · rename_i pr hpoll
    split at h
    · simp [serverError] at h
    rename_i msgs hml
    simp only [Option.some.injEq, Prod.mk.injEq, Outcome.resp.injEq,
      RespBody.ok.injEq] at h
    obtain ⟨⟨_, hr⟩, hcalls⟩ := h
    subst hr
    rcases pollAux_ok_cases env _ _ (env.clock 0) fuel _ 1 0 0 [] pr hpoll with
      ⟨_, hin⟩ | ⟨_, hnt, h1, hgt⟩
    · rw [if_neg fun hc => hc.2 hin]
      simp [hin]
    · have hle : env.clock (pr.tNext - 1) ≤ env.clock pr.tNext :=
        hmono (Nat.sub_le _ _)
      have hXY : (env.clock (pr.tNext - 1) - env.clock 0) * 1000 ≤
          (env.clock pr.tNext - env.clock 0) * 1000 := by nlinarith
      rw [if_pos ⟨lt_of_lt_of_le hgt hXY, hnt⟩]
      simp [hnt]

/-- Witness for C9: a concrete 200 response from a run that completed
immediately has no warning, matching its terminal status. -/
theorem C9_warning_iff_nonterminal_witness :
    (⟨"t1", runDone, buildMessages [⟨"m1", "user", [], []⟩], none⟩ : OkResult).warning.isSome ↔
      runDone.status ∉ terminalStates := by
  have hpoll : pollAux envC9 60000 1000 (envC9.clock 0) (0 + 1) runDone 1 0 0 [] =
      some (.ok ⟨runDone, 0, 0, 1, [], false⟩) := by
    rw [pollAux, if_pos (by decide)]
  have h : main (0 + 1) envC9 = some (.resp 200
      (.ok ⟨"t1", runDone, buildMessages [⟨"m1", "user", [], []⟩], none⟩),
      [.threadCreate, .messageCreate, .runCreate] ++
        (List.range 0).map RemoteCall.runGet ++ [.messagesList]) := by
    rw [main_success envC9 (0 + 1) "https://example.net" "agent-1" [] 1000 60000
      "t1" runDone ⟨runDone, 0, 0, 1, [], false⟩ [⟨"m1", "user", [], []⟩]
      (by decide) rfl (by decide) rfl (by decide) rfl rfl rfl rfl rfl rfl rfl
      hpoll rfl]
    rw [if_neg fun hc => hc.2 (by decide)]
  exact C9_warning_iff_nonterminal envC9 (0 + 1) _ _
    (fun i j hij => by
      show ((i : ℚ)) ≤ ((j : ℚ))
      exact_mod_cast hij) h

/-- C6: with the server configuration present, a request whose body cannot
be parsed as JSON gets HTTP 400 with an `error` field, and no remote call is
issued. -/
theorem C6_malformed_body_400_no_calls (env : Env) (fuel : Nat) (ep dflt : String)
    (hm : env.method ≠ "OPTIONS")
    (hep : env.endpoint = some ep) (hep' : ep ≠ "")
    (hag : env.agentIdEnv = some dflt) (hag' : dflt ≠ "")
    (hb : env.body = none) :
    main fuel env = some (.resp 400 (.err "Invalid JSON body." none), []) := by
  rw [main, if_neg hm, hep]
  dsimp only
  rw [if_neg hep', hag]
  dsimp only
  rw [if_neg hag', hb]
  rfl

/-- Witness for C6 on a concrete environment with an unparseable body. -/
theorem C6_malformed_body_400_no_calls_witness :
    main 0 envC6 = some (.resp 400 (.err "Invalid JSON body." none), []) :=
  C6_malformed_body_400_no_calls envC6 0 "https://example.net" "agent-1"
    (by decide) rfl (by decide) rfl (by decide) rfl

/-- C7: when the `AZURE_AI_ENDPOINT` configuration is absent (or empty, the
equally falsy value), the handler returns HTTP 500 with no remote call made,
whatever the request body holds. -/
theorem C7_missing_endpoint_500_before_calls (env : Env) (fuel : Nat)
    (hm : env.method ≠ "OPTIONS")
    (hep : env.endpoint = none ∨ env.endpoint = some "") :
    main fuel env =
      some (.resp 500 (.err "Server missing AZURE_AI_ENDPOINT" none), []) := by
  rcases hep with hep | hep
  · rw [main, if_neg hm, hep]
    rfl
  · rw [main, if_neg hm, hep]
    dsimp only
    rw [if_pos rfl]
    rfl

/-- Witness for C7 on a concrete environment with no endpoint configured and
a malformed body. -/
theorem C7_missing_endpoint_500_before_calls_witness :
    main 0 envC7 =
      some (.resp 500 (.err "Server missing AZURE_AI_ENDPOINT" none), []) :=
  C7_missing_endpoint_500_before_calls envC7 0 (by decide) (Or.inl rfl)

/-- C8: no remote failure is retried: an exception raised by thread
creation, message creation, run creation, any mid-poll `runs.get`, or the
final message listing surfaces immediately as a single HTTP 500 `Agent run
failed.` response carrying the cause as detail, with no transcript or other
partial payload; a raising `runs.get` aborts the poll loop at once as an
error outcome. -/
theorem C8_remote_failure_propagates_500 (env : Env) (fuel : Nat)
    (ep dflt : String) (body : List (String × JVal)) (I T : Int)
    (hm : env.method ≠ "OPTIONS")
    (hep : env.endpoint = some ep) (hep' : ep ≠ "")
    (hag : env.agentIdEnv = some dflt) (hag' : dflt ≠ "")
    (hb : env.body = some body)
    (hpi : pyInt (jget body "pollIntervalMs" (.num 1000)) = some I)
    (hti : pyInt (jget body "timeoutMs" (.num 60000)) = some T)
    (hci : env.clientInit = .ok ()) :
    (∀ e, env.threadCreate = .error e →
      main fuel env = some (serverError "Agent run failed." (some e),
        [.threadCreate])) ∧
    (∀ tid e, env.threadCreate = .ok tid → env.messageCreate = .error e →
      main fuel env = some (serverError "Agent run failed." (some e),
        [.threadCreate, .messageCreate])) ∧
    (∀ tid e, env.threadCreate = .ok tid → env.messageCreate = .ok () →
      env.runCreate = .error e →
      main fuel env = some (serverError "Agent run failed." (some e),
        [.threadCreate, .messageCreate, .runCreate])) ∧
    (∀ (run : Run) (t f s : Nat) (tr : List PEvent) (e : String),
      run.status ∉ terminalStates →
      ¬((env.clock t - env.clock 0) * 1000 > (T : ℚ)) →
      env.runGet f = .error e →
      pollAux env T I (env.clock 0) (fuel + 1) run t f s tr =
        some (.err e (f + 1))) ∧
    (∀ tid run0 e g, env.threadCreate = .ok tid → env.messageCreate = .ok () →
      env.runCreate = .ok run0 →
      pollAux env T I (env.clock 0) fuel run0 1 0 0 [] = some (.err e g) →
      main fuel env = some (serverError "Agent run failed." (some e),
        [.threadCreate, .messageCreate, .runCreate] ++
          (List.range g).map RemoteCall.runGet)) ∧
    (∀ tid run0 pr e, env.threadCreate = .ok tid → env.messageCreate = .ok () →
      env.runCreate = .ok run0 →
      pollAux env T I (env.clock 0) fuel run0 1 0 0 [] = some (.ok pr) →
      env.messagesList = .error e →
      main fuel env = some (serverError "Agent run failed." (some e),
        [.threadCreate, .messageCreate, .runCreate] ++
          (List.range pr.fetches).map RemoteCall.runGet ++ [.messagesList])) := by
  refine ⟨fun e hte => ?_, fun tid e htc hme => ?_, fun tid e htc hmc hre => ?_,
    fun run t f s tr e hnt hel hge => ?_, fun tid run0 e g htc hmc hrc hpe => ?_,
    fun tid run0 pr e htc hmc hrc hpoll hmle => ?_⟩
  · rw [main, if_neg hm, hep]
    dsimp only
    rw [if_neg hep', hag]
    dsimp only
    rw [if_neg hag', hb]
    dsimp only
    rw [hpi]
    dsimp only
    rw [hti]
    dsimp only
    rw [hci]
    dsimp only
    rw [hte]
  · rw [main, if_neg hm, hep]
    dsimp only
    rw [if_neg hep', hag]
    dsimp only
    rw [if_neg hag', hb]
    dsimp only
    rw [hpi]
    dsimp only
    rw [hti]
    dsimp only
    rw [hci]
    dsimp only
    rw [htc]
    dsimp only
    rw [hme]
  · rw [main, if_neg hm, hep]
    dsimp only
    rw [if_neg hep', hag]
    dsimp only
    rw [if_neg hag', hb]
    dsimp only
    rw [hpi]
    dsimp only
    rw [hti]
    dsimp only
    rw [hci]
    dsimp only
    rw [htc]
    dsimp only
    rw [hmc]
    dsimp only
    rw [hre]
  · rw [pollAux, if_neg hnt]
    dsimp only
    rw [if_neg hel, hge]
  · rw [main, if_neg hm, hep]
    dsimp only
    rw [if_neg hep', hag]
    dsimp only
    rw [if_neg hag', hb]
    dsimp only
    rw [hpi]
    dsimp only
    rw [hti]
    dsimp only
    rw [hci]
    dsimp only
    rw [htc]
    dsimp only
    rw [hmc]
    dsimp only
    rw [hrc]
    dsimp only
    rw [hpe]
  · rw [main, if_neg hm, hep]
    dsimp only
    rw [if_neg hep', hag]
    dsimp only
    rw [if_neg hag', hb]
    dsimp only
    rw [hpi]
    dsimp only
    rw [hti]
    dsimp only
    rw [hci]
    dsimp only
    rw [htc]
    dsimp only
    rw [hmc]
    dsimp only
    rw [hrc]
    dsimp only
    rw [hpoll]
    dsimp only
    rw [hmle]

/-- Witness for C8 at concrete environments: a raising thread creation
yields the single 500 with its cause; a raising `runs.get` aborts the poll
loop as an error outcome; a raising message listing yields the single 500
with its cause and no transcript. -/
theorem C8_remote_failure_propagates_500_witness :
    main 0 envC8a = some (serverError "Agent run failed." (some "boom"),
      [.threadCreate]) ∧
    pollAux envC8b 3000 1000 (envC8b.clock 0) (0 + 1) runQueued 1 0 0 [] =
      some (.err "neterr" (0 + 1)) ∧
    main (0 + 1) envC8c = some (serverError "Agent run failed." (some "listfail"),
      [.threadCreate, .messageCreate, .runCreate] ++
        (List.range (⟨runDone, 0, 0, 1, [], false⟩ : PollResult).fetches).map
          RemoteCall.runGet ++ [.messagesList]) := by
  have hpoll : pollAux envC8c 3000 1000 (envC8c.clock 0) (0 + 1) runDone 1 0 0 [] =
      some (.ok ⟨runDone, 0, 0, 1, [], false⟩) := by
    rw [pollAux, if_pos (by decide)]
  refine ⟨?_, ?_, ?_⟩
  · exact (C8_remote_failure_propagates_500 envC8a 0 "https://example.net" "agent-1"
      [("pollIntervalMs", .num 1000), ("timeoutMs", .num 3000)] 1000 3000
      (by decide) rfl (by decide) rfl (by decide) rfl rfl rfl rfl).1 "boom" rfl
  · exact (C8_remote_failure_propagates_500 envC8b 0 "https://example.net" "agent-1"
      [("pollIntervalMs", .num 1000), ("timeoutMs", .num 3000)] 1000 3000
      (by decide) rfl (by decide) rfl (by decide) rfl rfl rfl rfl).2.2.2.1
      runQueued 1 0 0 [] "neterr" (by decide) (by norm_num [envC8b, envC1]) rfl
  · exact (C8_remote_failure_propagates_500 envC8c (0 + 1) "https://example.net"
      "agent-1" [("pollIntervalMs", .num 1000), ("timeoutMs", .num 3000)] 1000 3000
      (by decide) rfl (by decide) rfl (by decide) rfl rfl rfl rfl).2.2.2.2.2
      "t1" runDone ⟨runDone, 0, 0, 1, [], false⟩ "listfail" rfl rfl rfl hpoll rfl

/-- C10: the handler performs no positivity validation on the two optional
integers: whenever they coerce to integers `p` and `q` — however nonpositive
— the outcome is never an HTTP 400 validation rejection; and when the
`pollIntervalMs` value is one `int()` cannot convert, the exception escapes
the handler instead of producing any 400/500 response. -/
theorem C10_no_validation_of_poll_config (env : Env) (fuel : Nat)
    (ep dflt : String) (body : List (String × JVal))
    (hm : env.method ≠ "OPTIONS")
    (hep : env.endpoint = some ep) (hep' : ep ≠ "")
    (hag : env.agentIdEnv = some dflt) (hag' : dflt ≠ "")
    (hb : env.body = some body) :
    (∀ (p q : Int), jget body "pollIntervalMs" (.num 1000) = .num p →
      jget body "timeoutMs" (.num 60000) = .num q →
      ∀ out calls, main fuel env = some (out, calls) →
      ∀ b, out ≠ .resp 400 b) ∧
    (pyInt (jget body "pollIntervalMs" (.num 1000)) = none →
      main fuel env = some (.uncaught "int() raised on pollIntervalMs", [])) := by
  constructor
  · intro p q hp hq out calls hmain b
    rw [main, if_neg hm, hep] at hmain
    dsimp only at hmain
    rw [if_neg hep', hag] at hmain
    dsimp only at hmain
    rw [if_neg hag', hb] at hmain
    dsimp only at hmain
    rw [hp] at hmain
    dsimp only [pyInt] at hmain
    rw [hq] at hmain
    dsimp only [pyInt] at hmain
    repeat' first
      | split at hmain
      | dsimp only at hmain
    all_goals first
      | (have ho := congrArg Prod.fst (Option.some.inj hmain)
         subst ho
         simp [serverError])
      | exact Option.noConfusion hmain
  · intro hnone
    rw [main, if_neg hm, hep]
    dsimp only
    rw [if_neg hep', hag]
    dsimp only
    rw [if_neg hag', hb]
    dsimp only
    rw [hnone]

/-- Witness for C10: a request with `pollIntervalMs = -5` and
`timeoutMs = -7` flows through to a 200 rather than any 400 rejection, and a
request with `pollIntervalMs = "abc"` escapes as an uncaught exception with
no remote call made. -/
theorem C10_no_validation_of_poll_config_witness :
    ((.resp 200 (.ok ⟨"t1", runDone, buildMessages [], none⟩) : Outcome) ≠
      .resp 400 (.err "Invalid JSON body." none)) ∧
    main 0 envC10b = some (.uncaught "int() raised on pollIntervalMs", []) := by
  have hpoll : pollAux envC10a (-7) (-5) (envC10a.clock 0) (0 + 1) runDone 1 0 0 [] =
      some (.ok ⟨runDone, 0, 0, 1, [], false⟩) := by
    rw [pollAux, if_pos (by decide)]
  have h : main (0 + 1) envC10a = some
      (.resp 200 (.ok ⟨"t1", runDone, buildMessages [], none⟩),
        [.threadCreate, .messageCreate, .runCreate] ++
          (List.range 0).map RemoteCall.runGet ++ [.messagesList]) := by
    rw [main_success envC10a (0 + 1) "https://example.net" "agent-1"
      [("pollIntervalMs", .num (-5)), ("timeoutMs", .num (-7))] (-5) (-7) "t1"
      runDone ⟨runDone, 0, 0, 1, [], false⟩ []
      (by decide) rfl (by decide) rfl (by decide) rfl rfl rfl rfl rfl rfl rfl
      hpoll rfl]
    rw [if_neg fun hc => hc.2 (by decide)]
  constructor
  · exact (C10_no_validation_of_poll_config envC10a (0 + 1) "https://example.net"
      "agent-1" [("pollIntervalMs", .num (-5)), ("timeoutMs", .num (-7))]
      (by decide) rfl (by decide) rfl (by decide) rfl).1 (-5) (-7) rfl rfl _ _ h
      (.err "Invalid JSON body." none)
  · exact (C10_no_validation_of_poll_config envC10b 0 "https://example.net"
      "agent-1" [("pollIntervalMs", .str "abc")]
      (by decide) rfl (by decide) rfl (by decide) rfl).2 (by decide)
